import Mathlib

/-!
Shallow embedding of `src/backend/routers/stock.py`: the stock-item CRUD
handlers of the stock router, over an explicit record store (the MongoDB
`stock_collection`, modelled as a list of stored documents in natural order)
and an explicit credential store (the `teachers_collection`, of which the
handlers only ever consult the `_id` keys, modelled as the list of those
identifier strings).

Python dictionaries returned to the caller are modelled as association lists
`List (String × Value)`; MongoDB documents held in the store are modelled as
a structure carrying the driver-assigned `_id` together with the validated
item fields, and are rendered to association lists exactly where the Python
code handles them as dicts (so that `item.pop('_id', None)` is an honest
operation on the rendered dict).
-/

set_option autoImplicit false

/-- A JSON-ish scalar value stored in a document field: the stock documents
only ever hold strings and integers. -/
inductive Value where
  | s : String → Value
  | i : Int → Value
deriving DecidableEq, Repr

/-- The pydantic `StockItem` model (stock.py lines 16-23): the seven
validated request fields. Python `int` is unbounded, hence `Int`. -/
structure StockItem where
  item_id : String
  name : String
  category : String
  quantity : Int
  unit : String
  location : String
  min_quantity : Int
deriving DecidableEq, Repr

/-- The pydantic `StockUpdate` model (stock.py lines 25-26). -/
structure StockUpdate where
  quantity : Int
deriving DecidableEq, Repr

/-- A document of `stock_collection`: the driver-assigned `_id` (an ObjectId,
modelled as an opaque string) together with the inserted item fields. Every
document of this collection was inserted by `create_stock_item` from a
validated `StockItem`, so it has exactly these fields. -/
structure StoredDoc where
  mongoId : String
  item : StockItem
deriving DecidableEq, Repr

/-- The HTTP error responses raised by the handlers. -/
inductive Err where
  | unauthorized
  | notFound
  | conflict
  | internalError
deriving DecidableEq, Repr

/-- The status code each error is surfaced with (stock.py lines 69, 80, 84,
89, 106, 110, 115, 124, 133, 137, 142, 148). -/
def Err.statusCode : Err → Nat
  | .unauthorized => 401
  | .notFound => 404
  | .conflict => 400
  | .internalError => 500

/-- Rendering of the seven declared item fields as the Python dict the
handlers read back from the store (insertion order of the pydantic model). -/
def StockItem.toDict (it : StockItem) : List (String × Value) :=
  [("item_id", Value.s it.item_id),
   ("name", Value.s it.name),
   ("category", Value.s it.category),
   ("quantity", Value.i it.quantity),
   ("unit", Value.s it.unit),
   ("location", Value.s it.location),
   ("min_quantity", Value.i it.min_quantity)]

/-- Rendering of a stored document as the dict `find`/`find_one` hand to the
handler: the MongoDB `_id` field followed by the item fields. -/
def StoredDoc.toDict (d : StoredDoc) : List (String × Value) :=
  ("_id", Value.s d.mongoId) :: d.item.toDict

/-- The `item.pop('_id', None)` step (stock.py lines 49 and 71): removal of the `_id`
key from a returned dict. -/
def popId (doc : List (String × Value)) : List (String × Value) :=
  doc.filter (fun kv => kv.1 != "_id")

/-- Integer field access `item[k]` on a returned dict, as used by the
low-stock filter. -/
def lookupInt (doc : List (String × Value)) (k : String) : Option Int :=
  match doc.lookup k with
  | some (Value.i n) => some n
  | _ => none

/-- The predicate of the in-memory low-stock filter (stock.py line 53):
`item["quantity"] < item["min_quantity"]`. Dicts reaching this filter come
from `StoredDoc.toDict` after `popId` and therefore always carry both integer
fields (see `lookupInt_popId_quantity`); the catch-all arm is unreachable
there. -/
def isLowStock (doc : List (String × Value)) : Bool :=
  match lookupInt doc "quantity", lookupInt doc "min_quantity" with
  | some q, some m => decide (q < m)
  | _, _ => false

/-- The `query` built at stock.py lines 40-43 applied by
`stock_collection.find(query)`: a `category` filter is added only when the
Python value is truthy, so `None` and the empty string both mean "no
filter". -/
def category_filtered (stock : List StoredDoc) (category : Option String) :
    List StoredDoc :=
  match category with
  | some c => if c = "" then stock else stock.filter (fun d => d.item.category == c)
  | none => stock

/-- Handler `get_stock_items` (stock.py lines 30-55): find with the optional category
query, pop `_id` from every result, then post-filter in memory when
`low_stock` is truthy (`None` and `False` are both falsy). -/
def get_stock_items (stock : List StoredDoc) (category : Option String)
    (low_stock : Option Bool) : List (List (String × Value)) :=
  let items := (category_filtered stock category).map (fun d => popId d.toDict)
  match low_stock with
  | some true => items.filter isLowStock
  | _ => items

/-- Handler `get_categories` (stock.py lines 58-61):
`sorted(stock_collection.distinct("category"))`. `distinct` yields the
distinct category values of the stored documents in unspecified order; the
subsequent `sorted` makes the order canonical, so any duplicate-removal
model composed with a correct sort is faithful. -/
def get_categories (stock : List StoredDoc) : List String :=
  List.insertionSort (· ≤ ·) ((stock.map (fun d => d.item.category)).dedup)

/-- The query `stock_collection.find_one({"item_id": iid})`: the first document of the
collection, in natural order, whose `item_id` field equals `iid`. -/
def find_item (stock : List StoredDoc) (iid : String) : Option StoredDoc :=
  stock.find? (fun d => d.item.item_id == iid)

/-- Handler `get_stock_item` (stock.py lines 64-72): find_one, 404 when absent
(`if not item`: `None` is falsy, and a found document is a non-empty dict,
hence truthy), else pop `_id` and return the dict. -/
def get_stock_item (stock : List StoredDoc) (item_id : String) :
    Except Err (List (String × Value)) :=
  match find_item stock item_id with
  | none => Except.error Err.notFound
  | some d => Except.ok (popId d.toDict)

/-- The authentication gate shared by the three mutating handlers (stock.py
lines 79-84, 105-110, 132-137): `if not teacher_username` rejects a missing
parameter and, by Python truthiness, the empty string; then
`teachers_collection.find_one({"_id": teacher_username})` must find a
credential document. -/
def credentialOk (teachers : List String) (teacher_username : Option String) :
    Bool :=
  match teacher_username with
  | none => false
  | some u => u != "" && teachers.contains u

/-- Handler `create_stock_item` (stock.py lines 76-95): auth gate, duplicate check by
`item_id`, then `insert_one` of the validated fields. The driver assigns the
fresh document its ObjectId, modelled by the extra argument `newId`. Returns
the response together with the resulting store state. -/
def create_stock_item (stock : List StoredDoc) (teachers : List String)
    (item : StockItem) (teacher_username : Option String) (newId : String) :
    Except Err String × List StoredDoc :=
  if !credentialOk teachers teacher_username then
    (Except.error Err.unauthorized, stock)
  else
    match find_item stock item.item_id with
    | some _ => (Except.error Err.conflict, stock)
    | none =>
        (Except.ok ("Stock item " ++ item.item_id ++ " created successfully"),
         stock ++ [⟨newId, item⟩])

/-- The `$set` of the quantity applied by `update_one` (stock.py lines 118-121):
the first document matching the query gets its quantity field replaced. -/
def setQuantityFirst : List StoredDoc → String → Int → List StoredDoc
  | [], _, _ => []
  | d :: ds, iid, q =>
      if d.item.item_id == iid then
        { d with item := { d.item with quantity := q } } :: ds
      else
        d :: setQuantityFirst ds iid q

/-- Modelled from the spec: the `modified_count` the document store reports
for the `$set` of stock.py lines 118-121. The store driver (`pymongo`) and
the `..database` module are not part of `src/`; spec §9 fixes the intended
semantics: "an update that sets quantity to its current value yields zero
modified rows", i.e. the count is 0 exactly when the targeted document
already holds the new value, and 1 otherwise. -/
def updateModifiedCount (stock : List StoredDoc) (iid : String) (q : Int) :
    Nat :=
  match find_item stock iid with
  | some d => if d.item.quantity = q then 0 else 1
  | none => 0

/-- Handler `update_stock_quantity` (stock.py lines 98-126): auth gate, existence
check (404), `update_one` with the `$set`, then 500 when the store reports
zero modified rows. Note the write has already happened when the 500 is
raised, so the resulting store is the updated one in every post-auth,
post-existence branch. -/
def update_stock_quantity (stock : List StoredDoc) (teachers : List String)
    (item_id : String) (update : StockUpdate)
    (teacher_username : Option String) : Except Err String × List StoredDoc :=
  if !credentialOk teachers teacher_username then
    (Except.error Err.unauthorized, stock)
  else
    match find_item stock item_id with
    | none => (Except.error Err.notFound, stock)
    | some _ =>
        let newStock := setQuantityFirst stock item_id update.quantity
        if updateModifiedCount stock item_id update.quantity = 0 then
          (Except.error Err.internalError, newStock)
        else
          (Except.ok ("Stock item " ++ item_id ++ " quantity updated to "
              ++ toString update.quantity), newStock)

/-- The query `delete_one({"item_id": iid})` (stock.py line 145): removes the first
matching document; its `deleted_count` is 1 when a match existed, else 0. -/
def deleteFirst (stock : List StoredDoc) (iid : String) : List StoredDoc :=
  stock.eraseP (fun d => d.item.item_id == iid)

/-- Handler `delete_stock_item` (stock.py lines 129-150): auth gate, existence check
(404), `delete_one`, then 500 when the store reports zero deleted rows (dead
in this sequential model, since the existence check just succeeded). -/
def delete_stock_item (stock : List StoredDoc) (teachers : List String)
    (item_id : String) (teacher_username : Option String) :
    Except Err String × List StoredDoc :=
  if !credentialOk teachers teacher_username then
    (Except.error Err.unauthorized, stock)
  else
    match find_item stock item_id with
    | none => (Except.error Err.notFound, stock)
    | some _ =>
        let deletedCount :=
          if stock.any (fun d => d.item.item_id == item_id) then 1 else 0
        let newStock := deleteFirst stock item_id
        if deletedCount = 0 then (Except.error Err.internalError, newStock)
        else
          (Except.ok ("Stock item " ++ item_id ++ " deleted successfully"),
           newStock)

instance {ε α : Type} [DecidableEq ε] [DecidableEq α] :
    DecidableEq (Except ε α) :=
  fun x y =>
    match x, y with
    | Except.ok a, Except.ok b => decidable_of_iff (a = b) (by simp)
    | Except.error a, Except.error b => decidable_of_iff (a = b) (by simp)
    | Except.ok _, Except.error _ => isFalse (by simp)
    | Except.error _, Except.ok _ => isFalse (by simp)

-- Concrete data for witnesses and counterexamples: the spec §8 example items.
def exItemA1 : StockItem :=
  ⟨"A1", "Paint", "Art Supplies", 2, "boxes", "Room 12", 5⟩

def exItemA2 : StockItem :=
  ⟨"A2", "Basketball", "Sports Equipment", 10, "pieces", "Gym", 3⟩

def exStock : List StoredDoc := [⟨"oid1", exItemA1⟩, ⟨"oid2", exItemA2⟩]

example : get_stock_items exStock none (some true) = [popId (StoredDoc.toDict ⟨"oid1", exItemA1⟩)] := by decide
example : get_categories exStock = ["Art Supplies", "Sports Equipment"] := by
  simp [get_categories, exStock, exItemA1, exItemA2, List.insertionSort,
    List.orderedInsert, List.dedup]
  decide
example : (create_stock_item [] ["alice"] exItemA1 (some "alice") "oid9").1
    = Except.ok "Stock item A1 created successfully" := by decide
example : (update_stock_quantity exStock ["alice"] "A1" ⟨2⟩ (some "alice")).1
    = Except.error Err.internalError := by decide
example : (update_stock_quantity exStock ["alice"] "A1" ⟨7⟩ (some "alice")).1
    = Except.ok "Stock item A1 quantity updated to 7" := by decide
example : (delete_stock_item exStock ["alice"] "A1" (some "alice")).2
    = [⟨"oid2", exItemA2⟩] := by decide
example : (delete_stock_item exStock [] "A1" (some "alice")).1
    = Except.error Err.unauthorized := by decide

-- Helper lemmas about the dict rendering of a stored document.

lemma popId_toDict (d : StoredDoc) : popId d.toDict = d.item.toDict := rfl

lemma toDict_keys (it : StockItem) :
    it.toDict.map Prod.fst
      = ["item_id", "name", "category", "quantity", "unit", "location",
         "min_quantity"] := rfl

lemma toDict_lookup_id (it : StockItem) :
    it.toDict.lookup "_id" = none := rfl

lemma toDict_lookup_category (it : StockItem) :
    it.toDict.lookup "category" = some (Value.s it.category) := rfl

lemma lookupInt_toDict_quantity (it : StockItem) :
    lookupInt it.toDict "quantity" = some it.quantity := rfl

lemma lookupInt_popId_quantity (d : StoredDoc) :
    lookupInt (popId d.toDict) "quantity" = some d.item.quantity := rfl

lemma lookupInt_toDict_min_quantity (it : StockItem) :
    lookupInt it.toDict "min_quantity" = some it.min_quantity := rfl

lemma isLowStock_toDict (it : StockItem) :
    isLowStock it.toDict = decide (it.quantity < it.min_quantity) := rfl

-- Helper lemmas about the authentication gate.

lemma credentialOk_eq_false (teachers : List String)
    (username : Option String)
    (h : username = none ∨ ∃ u, username = some u ∧ u ∉ teachers) :
    credentialOk teachers username = false := by
  rcases h with h | ⟨u, rfl, hu⟩
  · subst h; rfl
  · simp [credentialOk, hu]

lemma credentialOk_eq_true (teachers : List String) (u : String)
    (hu : u ∈ teachers) (hne : u ≠ "") :
    credentialOk teachers (some u) = true := by
  simp [credentialOk, hu, hne]

lemma create_of_unauthorized (stock : List StoredDoc)
    (teachers : List String) (item : StockItem)
    (username : Option String) (newId : String)
    (h : credentialOk teachers username = false) :
    create_stock_item stock teachers item username newId
      = (Except.error Err.unauthorized, stock) := by
  simp [create_stock_item, h]

lemma update_of_unauthorized (stock : List StoredDoc)
    (teachers : List String) (iid : String) (upd : StockUpdate)
    (username : Option String)
    (h : credentialOk teachers username = false) :
    update_stock_quantity stock teachers iid upd username
      = (Except.error Err.unauthorized, stock) := by
  simp [update_stock_quantity, h]

lemma delete_of_unauthorized (stock : List StoredDoc)
    (teachers : List String) (iid : String) (username : Option String)
    (h : credentialOk teachers username = false) :
    delete_stock_item stock teachers iid username
      = (Except.error Err.unauthorized, stock) := by
  simp [delete_stock_item, h]

/-- C1: a mutating request (create, update quantity, delete) whose credential
identifier is missing, or names no record of the credential store, fails with
Unauthorized and returns the record store unchanged: the failure happens
before any store mutation. -/
theorem c1_unauthorized_leaves_store_unchanged
    (stock : List StoredDoc) (teachers : List String) (item : StockItem)
    (iid newId : String) (upd : StockUpdate) (username : Option String)
    (h : username = none ∨ ∃ u, username = some u ∧ u ∉ teachers) :
    create_stock_item stock teachers item username newId
        = (Except.error Err.unauthorized, stock) ∧
    update_stock_quantity stock teachers iid upd username
        = (Except.error Err.unauthorized, stock) ∧
    delete_stock_item stock teachers iid username
        = (Except.error Err.unauthorized, stock) := by
  have hc := credentialOk_eq_false teachers username h
  exact ⟨create_of_unauthorized _ _ _ _ _ hc,
         update_of_unauthorized _ _ _ _ _ hc,
         delete_of_unauthorized _ _ _ _ hc⟩

/-- Witness for C1 at a concrete input: the credential `bob` is not in the
credential store, so all three mutating operations answer Unauthorized and
leave the two-item store untouched. -/
theorem c1_witness :
    create_stock_item exStock ["alice"] exItemA1 (some "bob") "oid9"
        = (Except.error Err.unauthorized, exStock) ∧
    update_stock_quantity exStock ["alice"] "A1" ⟨7⟩ (some "bob")
        = (Except.error Err.unauthorized, exStock) ∧
    delete_stock_item exStock ["alice"] "A1" (some "bob")
        = (Except.error Err.unauthorized, exStock) :=
  c1_unauthorized_leaves_store_unchanged exStock ["alice"] exItemA1 "A1"
    "oid9" ⟨7⟩ (some "bob") (Or.inr ⟨"bob", rfl, by decide⟩)

/-- C5: with an accepted credential, creating an item whose identifier is
already present fails with Conflict — whatever the other field values are —
and the store is unchanged. -/
theorem c5_duplicate_create_conflict
    (stock : List StoredDoc) (teachers : List String) (item : StockItem)
    (u newId : String) (hu : u ∈ teachers) (hne : u ≠ "")
    (hdup : ∃ d ∈ stock, d.item.item_id = item.item_id) :
    create_stock_item stock teachers item (some u) newId
      = (Except.error Err.conflict, stock) := by
  have hc := credentialOk_eq_true teachers u hu hne
  have hfind : (find_item stock item.item_id).isSome := by
    rw [find_item, List.find?_isSome]
    obtain ⟨d, hd, hid⟩ := hdup
    exact ⟨d, hd, by simpa using hid⟩
  rcases hsome : find_item stock item.item_id with _ | d
  · rw [hsome] at hfind; simp at hfind
  · simp [create_stock_item, hc, hsome]

/-- Witness for C5 at a concrete input: `A1` is already stored, and creating
another item with identifier `A1` but entirely different other fields is
rejected with Conflict, leaving the store as it was. -/
theorem c5_witness :
    create_stock_item exStock ["alice"]
        ⟨"A1", "Glue", "Art Supplies", 9, "tubes", "Room 3", 1⟩
        (some "alice") "oid9"
      = (Except.error Err.conflict, exStock) :=
  c5_duplicate_create_conflict exStock ["alice"]
    ⟨"A1", "Glue", "Art Supplies", 9, "tubes", "Room 3", 1⟩
    "alice" "oid9" (by decide) (by decide)
    ⟨⟨"oid1", exItemA1⟩, by decide, by decide⟩

/-- C9: the credential check precedes every store check, so an unauthorized
create of an already-present identifier answers Unauthorized (not Conflict),
and an unauthorized update or delete of an absent identifier answers
Unauthorized (not NotFound). -/
theorem c9_auth_checked_before_store
    (stock : List StoredDoc) (teachers : List String) (item : StockItem)
    (iid newId : String) (upd : StockUpdate) (username : Option String)
    (hbad : username = none ∨ ∃ u, username = some u ∧ u ∉ teachers)
    (_hdup : ∃ d ∈ stock, d.item.item_id = item.item_id)
    (_habs : ∀ d ∈ stock, d.item.item_id ≠ iid) :
    (create_stock_item stock teachers item username newId).1
        = Except.error Err.unauthorized ∧
    (update_stock_quantity stock teachers iid upd username).1
        = Except.error Err.unauthorized ∧
    (delete_stock_item stock teachers iid username).1
        = Except.error Err.unauthorized := by
  have hc := credentialOk_eq_false teachers username hbad
  exact ⟨by rw [create_of_unauthorized _ _ _ _ _ hc],
         by rw [update_of_unauthorized _ _ _ _ _ hc],
         by rw [delete_of_unauthorized _ _ _ _ hc]⟩

/-- Witness for C9 at a concrete input: with the unknown credential `bob`,
creating a duplicate of the stored `A1` answers Unauthorized rather than
Conflict, and updating or deleting the absent `Z9` answers Unauthorized
rather than NotFound. -/
theorem c9_witness :
    (create_stock_item exStock ["alice"] exItemA1 (some "bob") "oid9").1
        = Except.error Err.unauthorized ∧
    (update_stock_quantity exStock ["alice"] "Z9" ⟨7⟩ (some "bob")).1
        = Except.error Err.unauthorized ∧
    (delete_stock_item exStock ["alice"] "Z9" (some "bob")).1
        = Except.error Err.unauthorized :=
  c9_auth_checked_before_store exStock ["alice"] exItemA1 "Z9" "oid9" ⟨7⟩
    (some "bob") (Or.inr ⟨"bob", rfl, by decide⟩)
    ⟨⟨"oid1", exItemA1⟩, by decide, by decide⟩ (by decide)

/-- C2: with an accepted credential, creating an item under a fresh
identifier succeeds, and a subsequent get by that identifier succeeds and
returns exactly the seven field values supplied at creation. -/
theorem c2_create_then_get_roundtrip
    (stock : List StoredDoc) (teachers : List String) (item : StockItem)
    (u newId : String) (hu : u ∈ teachers) (hne : u ≠ "")
    (hfresh : ∀ d ∈ stock, d.item.item_id ≠ item.item_id) :
    (create_stock_item stock teachers item (some u) newId).1
        = Except.ok ("Stock item " ++ item.item_id
            ++ " created successfully") ∧
    get_stock_item (create_stock_item stock teachers item (some u) newId).2
        item.item_id = Except.ok item.toDict := by
  have hc := credentialOk_eq_true teachers u hu hne
  have hnone : find_item stock item.item_id = none := by
    rw [find_item, List.find?_eq_none]
    intro d hd
    simpa using hfresh d hd
  have hcreate : create_stock_item stock teachers item (some u) newId
      = (Except.ok ("Stock item " ++ item.item_id ++ " created successfully"),
         stock ++ [⟨newId, item⟩]) := by
    simp [create_stock_item, hc, hnone]
  refine ⟨by rw [hcreate], ?_⟩
  rw [hcreate]
  have hfind : find_item (stock ++ [⟨newId, item⟩]) item.item_id
      = some ⟨newId, item⟩ := by
    unfold find_item at hnone ⊢
    rw [List.find?_append, hnone]
    simp
  simp [get_stock_item, hfind, popId_toDict]

/-- Witness for C2 at a concrete input: creating a fresh item `B7` in the
two-item store with credential `alice`, then getting `B7`, returns exactly
the supplied fields. -/
theorem c2_witness :
    (create_stock_item exStock ["alice"]
        ⟨"B7", "Chalk", "Art Supplies", 4, "boxes", "Room 1", 2⟩
        (some "alice") "oid9").1
      = Except.ok "Stock item B7 created successfully" ∧
    get_stock_item
        (create_stock_item exStock ["alice"]
          ⟨"B7", "Chalk", "Art Supplies", 4, "boxes", "Room 1", 2⟩
          (some "alice") "oid9").2 "B7"
      = Except.ok (StockItem.toDict
          ⟨"B7", "Chalk", "Art Supplies", 4, "boxes", "Room 1", 2⟩) :=
  c2_create_then_get_roundtrip exStock ["alice"]
    ⟨"B7", "Chalk", "Art Supplies", 4, "boxes", "Room 1", 2⟩
    "alice" "oid9" (by decide) (by decide) (by decide)

/-- C4: with an accepted credential and an existing item, the quantity
update fails with InternalError exactly when the store reports zero modified
rows, and — per the document-store semantics of spec §9 — that count is zero
exactly when the requested quantity equals the item's current quantity. -/
theorem c4_internal_error_iff_zero_modified
    (stock : List StoredDoc) (teachers : List String) (iid u : String)
    (q : Int) (d : StoredDoc) (hu : u ∈ teachers) (hne : u ≠ "")
    (hfind : find_item stock iid = some d) :
    ((update_stock_quantity stock teachers iid ⟨q⟩ (some u)).1
        = Except.error Err.internalError
      ↔ updateModifiedCount stock iid q = 0) ∧
    (updateModifiedCount stock iid q = 0 ↔ d.item.quantity = q) := by
  have hc := credentialOk_eq_true teachers u hu hne
  have hmc : updateModifiedCount stock iid q
      = if d.item.quantity = q then 0 else 1 := by
    rw [updateModifiedCount, hfind]
  by_cases hq : d.item.quantity = q
  · constructor
    · rw [hmc]
      simp only [hq, if_pos rfl, iff_true]
      simp [update_stock_quantity, hc, hfind, hmc, hq]
    · rw [hmc]; simp [hq]
  · constructor
    · rw [hmc]
      simp only [if_neg hq]
      constructor
      · intro habs
        have : (update_stock_quantity stock teachers iid ⟨q⟩ (some u)).1
            = Except.ok ("Stock item " ++ iid ++ " quantity updated to "
                ++ toString q) := by
          simp [update_stock_quantity, hc, hfind, hmc, hq]
        rw [this] at habs
        exact absurd habs (by simp)
      · intro h01; exact absurd h01 one_ne_zero
    · rw [hmc]; simp [hq]

/-- Witness for C4 at a concrete input: item `A1` holds quantity 2, and an
authorized update setting its quantity to 2 is the zero-modified-rows case,
so it answers InternalError; the equivalences are instantiated at that
state. -/
theorem c4_witness :
    (((update_stock_quantity exStock ["alice"] "A1" ⟨2⟩ (some "alice")).1
        = Except.error Err.internalError
      ↔ updateModifiedCount exStock "A1" 2 = 0) ∧
     (updateModifiedCount exStock "A1" 2 = 0
      ↔ (StoredDoc.mk "oid1" exItemA1).item.quantity = 2)) ∧
    (update_stock_quantity exStock ["alice"] "A1" ⟨2⟩ (some "alice")).1
        = Except.error Err.internalError :=
  ⟨c4_internal_error_iff_zero_modified exStock ["alice"] "A1" "alice" 2
      ⟨"oid1", exItemA1⟩ (by decide) (by decide) (by decide),
   by decide⟩

/-- With exactly one match in the list, erasing the first match leaves no
match for a further search. -/
lemma find?_eraseP_eq_none {α : Type} (p : α → Bool) :
    ∀ l : List α, l.countP p = 1 → (l.eraseP p).find? p = none := by
  intro l
  induction l with
  | nil => intro h; simp at h
  | cons a t ih =>
    intro h
    rw [List.countP_cons] at h
    by_cases hp : p a
    · rw [List.eraseP_cons_of_pos hp]
      rw [if_pos hp] at h
      have ht : t.countP p = 0 := by omega
      rw [List.find?_eq_none]
      intro x hx
      exact List.countP_eq_zero.mp ht x hx
    · rw [List.eraseP_cons_of_neg hp, List.find?_cons_of_neg _ hp]
      rw [if_neg hp] at h
      exact ih (by omega)

/-- C6: with an accepted credential, deleting an identifier matching no
stored item fails with NotFound and leaves the store unchanged; and for an
identifier held by exactly one stored item, deleting it twice in a row makes
the first delete succeed and the second fail with NotFound. -/
theorem c6_delete_missing_and_twice
    (stock : List StoredDoc) (teachers : List String)
    (iid otherId u : String) (hu : u ∈ teachers) (hne : u ≠ "")
    (habs : ∀ d ∈ stock, d.item.item_id ≠ otherId)
    (hone : stock.countP (fun d => d.item.item_id == iid) = 1) :
    delete_stock_item stock teachers otherId (some u)
        = (Except.error Err.notFound, stock) ∧
    (delete_stock_item stock teachers iid (some u)).1
        = Except.ok ("Stock item " ++ iid ++ " deleted successfully") ∧
    (delete_stock_item (delete_stock_item stock teachers iid (some u)).2
        teachers iid (some u)).1 = Except.error Err.notFound := by
  have hc := credentialOk_eq_true teachers u hu hne
  have habs' : find_item stock otherId = none := by
    rw [find_item, List.find?_eq_none]
    intro d hd
    simpa using habs d hd
  refine ⟨by simp [delete_stock_item, hc, habs'], ?_, ?_⟩
  · have hex : ∃ d ∈ stock, (fun d : StoredDoc => d.item.item_id == iid) d :=
      List.countP_pos_iff.mp (by omega)
    have hfs : (find_item stock iid).isSome := by
      rw [find_item, List.find?_isSome]
      obtain ⟨d, hd, hp⟩ := hex
      exact ⟨d, hd, hp⟩
    rcases hsome : find_item stock iid with _ | d
    · rw [hsome] at hfs; simp at hfs
    · have hany : stock.any (fun d => d.item.item_id == iid) = true := by
        rw [List.any_eq_true]
        obtain ⟨d', hd', hp⟩ := hex
        exact ⟨d', hd', hp⟩
      simp [delete_stock_item, hc, hsome, hany]
  · have hsnd : (delete_stock_item stock teachers iid (some u)).2
        = deleteFirst stock iid := by
      rcases hsome : find_item stock iid with _ | d
      · rw [find_item, List.find?_eq_none] at hsome
        have : stock.countP (fun d => d.item.item_id == iid) = 0 :=
          List.countP_eq_zero.mpr hsome
        omega
      · rcases hany : stock.any (fun d => d.item.item_id == iid) with _ | _
        · rw [List.any_eq_false] at hany
          have hmem := List.mem_of_find?_eq_some hsome
          exact absurd (List.find?_some hsome) (by simpa using hany d hmem)
        · simp [delete_stock_item, hc, hsome, hany]
    rw [hsnd]
    have hnone : find_item (deleteFirst stock iid) iid = none := by
      rw [find_item, deleteFirst]
      exact find?_eraseP_eq_none _ stock hone
    simp [delete_stock_item, hc, hnone]

/-- Witness for C6 at a concrete input: deleting the absent `Z9` answers
NotFound and leaves the store unchanged, while deleting the stored `A1`
succeeds once and answers NotFound the second time. -/
theorem c6_witness :
    delete_stock_item exStock ["alice"] "Z9" (some "alice")
        = (Except.error Err.notFound, exStock) ∧
    (delete_stock_item exStock ["alice"] "A1" (some "alice")).1
        = Except.ok "Stock item A1 deleted successfully" ∧
    (delete_stock_item
        (delete_stock_item exStock ["alice"] "A1" (some "alice")).2
        ["alice"] "A1" (some "alice")).1 = Except.error Err.notFound :=
  c6_delete_missing_and_twice exStock ["alice"] "A1" "Z9" "alice"
    (by decide) (by decide) (by decide) (by decide)

/-- Every dict listed by `get_stock_items` is the `_id`-popped rendering of a
document that survived the category query. -/
lemma mem_get_stock_items (stock : List StoredDoc) (category : Option String)
    (low : Option Bool) (doc : List (String × Value))
    (h : doc ∈ get_stock_items stock category low) :
    ∃ d ∈ category_filtered stock category, doc = popId d.toDict := by
  have hmem : doc ∈ (category_filtered stock category).map
      (fun d => popId d.toDict) := by
    match low with
    | none => exact h
    | some false => exact h
    | some true => exact (List.mem_filter.mp h).1
  obtain ⟨d, hd, hdoc⟩ := List.mem_map.mp hmem
  exact ⟨d, hd, hdoc.symm⟩

/-- C3: with `low_stock=true`, the listing returns exactly those dicts of the
category-filtered listing whose quantity is strictly below the minimum
quantity; a dict with quantity equal to its minimum quantity is never
included. -/
theorem c3_low_stock_is_strict_subset (stock : List StoredDoc)
    (category : Option String) (doc : List (String × Value)) :
    doc ∈ get_stock_items stock category (some true) ↔
      doc ∈ get_stock_items stock category none ∧
      ∃ q m, lookupInt doc "quantity" = some q ∧
        lookupInt doc "min_quantity" = some m ∧ q < m := by
  have heq : get_stock_items stock category (some true)
      = (get_stock_items stock category none).filter isLowStock := rfl
  rw [heq, List.mem_filter]
  constructor
  · rintro ⟨hmem, hlow⟩
    refine ⟨hmem, ?_⟩
    obtain ⟨d, _, rfl⟩ := mem_get_stock_items _ _ _ _ hmem
    rw [popId_toDict] at hlow ⊢
    rw [isLowStock_toDict] at hlow
    exact ⟨d.item.quantity, d.item.min_quantity,
      lookupInt_toDict_quantity _, lookupInt_toDict_min_quantity _,
      by simpa using hlow⟩
  · rintro ⟨hmem, q, m, hq, hm, hlt⟩
    refine ⟨hmem, ?_⟩
    obtain ⟨d, _, rfl⟩ := mem_get_stock_items _ _ _ _ hmem
    rw [popId_toDict] at hq hm ⊢
    rw [lookupInt_toDict_quantity] at hq
    rw [lookupInt_toDict_min_quantity] at hm
    rw [isLowStock_toDict]
    cases hq
    cases hm
    simpa using hlt

/-- C7: the categories listing holds each distinct category of the stored
items exactly once (it is duplicate-free and a category appears in it exactly
when some stored item carries it), in lexicographically sorted order. -/
theorem c7_categories_sorted_distinct (stock : List StoredDoc) :
    (get_categories stock).Sorted (· ≤ ·) ∧
    (get_categories stock).Nodup ∧
    ∀ c : String,
      (c ∈ get_categories stock ↔ ∃ d ∈ stock, d.item.category = c) := by
  refine ⟨List.sorted_insertionSort _ _, ?_, ?_⟩
  · exact ((List.perm_insertionSort _ _).nodup_iff).mpr (List.nodup_dedup _)
  · intro c
    rw [get_categories, (List.perm_insertionSort _ _).mem_iff,
      List.mem_dedup, List.mem_map]

/-- C8 counterexample: the category argument is supplied as the empty string
(the request `?category=`), yet — because the handler only installs the
category query when the Python value is truthy — the listing returns the
stored `Art Supplies` item, whose category is not an exact match of the
supplied value. -/
theorem c8_counterexample :
    exItemA1.toDict ∈ get_stock_items exStock (some "") none ∧
    exItemA1.toDict.lookup "category" = some (Value.s "Art Supplies") ∧
    ("Art Supplies" : String) ≠ "" := by
  exact ⟨by decide, by decide, by decide⟩

/-- C8 (amended): for every supplied non-empty category argument, the listing
returns only dicts whose category field is an exact match of the supplied
value, whatever the low-stock flag. -/
theorem c8_nonempty_category_exact_match (stock : List StoredDoc)
    (c : String) (low : Option Bool) (doc : List (String × Value))
    (hc : c ≠ "") (hdoc : doc ∈ get_stock_items stock (some c) low) :
    doc.lookup "category" = some (Value.s c) := by
  obtain ⟨d, hd, rfl⟩ := mem_get_stock_items _ _ _ _ hdoc
  rw [popId_toDict, toDict_lookup_category]
  simp only [category_filtered, if_neg hc] at hd
  have hcat : d.item.category = c := by
    simpa using (List.mem_filter.mp hd).2
  rw [hcat]

/-- Witness for the amended C8 at a concrete input: with the supplied
non-empty category `Art Supplies`, the listed dict carries exactly that
category value. -/
theorem c8_witness :
    exItemA1.toDict.lookup "category" = some (Value.s "Art Supplies") :=
  c8_nonempty_category_exact_match exStock "Art Supplies" none
    exItemA1.toDict (by decide) (by decide)

/-- C10: every dict a successful read returns — each element of the listing
and the dict of a get by identifier — carries exactly the seven declared
item fields, and in particular the record store's internal `_id` key has
been removed. -/
theorem c10_responses_carry_no_internal_id (stock : List StoredDoc)
    (category : Option String) (low : Option Bool) (iid : String)
    (doc doc2 : List (String × Value))
    (h1 : doc ∈ get_stock_items stock category low)
    (h2 : get_stock_item stock iid = Except.ok doc2) :
    (doc.map Prod.fst
        = ["item_id", "name", "category", "quantity", "unit", "location",
           "min_quantity"] ∧
      doc.lookup "_id" = none) ∧
    (doc2.map Prod.fst
        = ["item_id", "name", "category", "quantity", "unit", "location",
           "min_quantity"] ∧
      doc2.lookup "_id" = none) := by
  obtain ⟨d, _, rfl⟩ := mem_get_stock_items _ _ _ _ h1
  constructor
  · rw [popId_toDict]
    exact ⟨toDict_keys _, toDict_lookup_id _⟩
  · rcases hsome : find_item stock iid with _ | d2
    · simp [get_stock_item, hsome] at h2
    · have hdoc2 : doc2 = popId d2.toDict := by
        simp [get_stock_item, hsome] at h2
        exact h2.symm
      rw [hdoc2, popId_toDict]
      exact ⟨toDict_keys _, toDict_lookup_id _⟩

/-- Witness for C10 at a concrete input: a dict of the full listing and the
dict of a get of `A2` both carry exactly the seven declared fields and no
`_id`. -/
theorem c10_witness :
    (exItemA1.toDict.map Prod.fst
        = ["item_id", "name", "category", "quantity", "unit", "location",
           "min_quantity"] ∧
      exItemA1.toDict.lookup "_id" = none) ∧
    (exItemA2.toDict.map Prod.fst
        = ["item_id", "name", "category", "quantity", "unit", "location",
           "min_quantity"] ∧
      exItemA2.toDict.lookup "_id" = none) :=
  c10_responses_carry_no_internal_id exStock none none "A2"
    exItemA1.toDict exItemA2.toDict (by decide) (by decide)
